import Mathlib

/-!
Shallow embedding of `src/luigi/s3.py` (an S3-backed filesystem target for the
luigi task framework) and proofs about its specified behaviour.

Python strings are modelled as `List Char` (`PyStr`).  The S3 backend state is
a map from bucket names to association lists of `(key, body)` pairs; the local
filesystem is a map from paths to file contents.  Python exceptions are
modelled with `Except` and the `PyErr` inductive.
-/

/-- Python strings, modelled as lists of characters. -/
abbrev PyStr := List Char

/-- Python exceptions that the code under `src/luigi/s3.py` can raise in the
modelled fragment. -/
inductive PyErr where
  /-- Python `NameError`: an undefined name was evaluated; the payload is the name. -/
  | nameError (n : PyStr)
  /-- boto raises `S3ResponseError` when `get_bucket(..., validate=True)` is
  called on a bucket that does not exist. -/
  | s3ResponseError
  /-- Python `IOError`: a local file could not be opened. -/
  | ioError
  /-- Python `AssertionError` from a failed `assert` statement. -/
  | assertionError
  /-- Python `ValueError("Unsupported open mode ...")`; the specification calls this
  failure `UnsupportedModeError`. -/
  | valueError
  /-- Python `NotImplementedError`: an intentionally unbuilt capability. -/
  | notImplementedError
  deriving DecidableEq, Repr

/-! ## urlparse.urlsplit

`path_to_bucket_and_key` and `S3Target.__init__` both call Python 2's
`urlparse.urlsplit`.  The embedding below follows the CPython 2.7
implementation of `urlsplit` (scheme split at the first colon when the
candidate is made of scheme characters and the remainder is not a pure port
number, netloc after a leading `//` up to the first of `/?#`, then fragment
split at the first `#` and query split at the first `?`). -/

/-- Characters allowed in a URL scheme (CPython's `scheme_chars`). -/
def scheme_chars : PyStr :=
  "abcdefghijklmnopqrstuvwxyzABCDEFGHIJKLMNOPQRSTUVWXYZ0123456789+-.".toList

/-- Decimal digit characters, used by `urlsplit`'s port-number check. -/
def digitChars : PyStr := "0123456789".toList

/-- Result of `urlparse.urlsplit`: a `(scheme, netloc, path, query, fragment)`
tuple. -/
structure SplitResult where
  scheme : PyStr
  netloc : PyStr
  path : PyStr
  query : PyStr
  fragment : PyStr
  deriving DecidableEq, Repr

/-- A character terminating the netloc component (CPython's `_splitnetloc`
scans for the first of `/`, `?`, `#`). -/
def isNetlocEnd (c : Char) : Bool := c = '/' || c = '?' || c = '#'

/-- Python's `s.split(c, 1)` specialised to a single character: the part
before the first occurrence of `c` and the part after it (empty when `c` does
not occur, matching the `if c in url` guard in `urlsplit`). -/
def splitAtFirst (c : Char) (s : PyStr) : PyStr × PyStr :=
  (s.takeWhile (fun a => a ≠ c), (s.dropWhile (fun a => a ≠ c)).drop 1)

/-- Scheme stage of `urlsplit`: split at the first colon when the candidate
scheme is made of scheme characters and the remainder is not a pure port
number (with CPython's fast path for the literal scheme `http`); returns
`(scheme, remainder)`. -/
def splitScheme (url : PyStr) : PyStr × PyStr :=
  match url.findIdx? (fun c => c = ':') with
  | some i =>
    if 0 < i then
      if url.take i = "http".toList then
        (url.take i, url.drop (i + 1))
      else if (url.take i).all (fun c => scheme_chars.contains c) &&
          ((url.drop (i + 1)).isEmpty ||
            !((url.drop (i + 1)).all (fun c => digitChars.contains c))) then
        ((url.take i).map Char.toLower, url.drop (i + 1))
      else ([], url)
    else ([], url)
  | none => ([], url)

/-- Netloc stage of `urlsplit`: when the remainder begins with `//`, the
netloc runs up to the first of `/`, `?`, `#` (CPython's `_splitnetloc`);
returns `(netloc, remainder)`. -/
def splitNetloc (rest : PyStr) : PyStr × PyStr :=
  if rest.take 2 = "//".toList then
    ((rest.drop 2).takeWhile (fun c => !isNetlocEnd c),
     (rest.drop 2).dropWhile (fun c => !isNetlocEnd c))
  else ([], rest)

/-- Embedding of Python 2.7's `urlparse.urlsplit` (with `allow_fragments`
true and no default scheme, as called by `s3.py`). -/
def urlsplit (url : PyStr) : SplitResult :=
  let schemeSplit := splitScheme url
  let netlocSplit := splitNetloc schemeSplit.2
  let afterFrag := splitAtFirst '#' netlocSplit.2
  let afterQuery := splitAtFirst '?' afterFrag.1
  { scheme := schemeSplit.1, netloc := netlocSplit.1,
    path := afterQuery.1, query := afterQuery.2, fragment := afterFrag.2 }

/-! ## The S3 backend and local filesystem models

An S3 bucket's contents are an association list from object keys to object
bodies (boto's `get_key` returns the object or `None`; `list(prefix=p)`
enumerates the keys having string prefix `p`).  The whole backend maps bucket
names to bucket contents; `none` means the bucket does not exist.  The local
filesystem maps paths to file contents. -/

/-- Contents of one S3 bucket: `(key, body)` pairs. -/
abbrev S3Objects := List (PyStr × PyStr)

/-- The S3 backend: bucket name to bucket contents (`none`: no such bucket). -/
abbrev S3State := PyStr → Option S3Objects

/-- The local filesystem: path to file contents (`none`: no such file). -/
abbrev LocalFS := PyStr → Option PyStr

/-- Create or overwrite a local file. -/
def setFile (fs : LocalFS) (p : PyStr) (c : PyStr) : LocalFS :=
  fun q => if q = p then some c else fs q

/-- Embedding of `os.remove`: delete a local file. -/
def removeFile (fs : LocalFS) (p : PyStr) : LocalFS :=
  fun q => if q = p then none else fs q

/-- Fetch the body of the object stored at `(bucket, key)`, if any. -/
def getObject (st : S3State) (bucket key : PyStr) : Option PyStr :=
  match st bucket with
  | none => none
  | some objs => objs.lookup key

/-- boto's `bucket.list(prefix=p)`: the keys of the bucket's objects whose key
has string prefix `p`. -/
def bucketList (objs : S3Objects) (p : PyStr) : List PyStr :=
  (objs.map Prod.fst).filter (fun k => p.isPrefixOf k)

/-! ## S3Client (src/luigi/s3.py lines 31-114) -/

/-- Constant `S3_DIRECTORY_MARKER_SUFFIX_0 = '_$folder$'` (s3.py line 33). -/
def S3_DIRECTORY_MARKER_SUFFIX_0 : PyStr := "_$folder$".toList

/-- Constant `S3_DIRECTORY_MARKER_SUFFIX_1 = '/'` (s3.py line 34). -/
def S3_DIRECTORY_MARKER_SUFFIX_1 : PyStr := "/".toList

namespace S3Client

/-- Embedding of `S3Client.path_to_bucket_and_key` (s3.py lines 105-108): urlsplit the
path; the netloc is the bucket and the path component is the key. -/
def path_to_bucket_and_key (path : PyStr) : PyStr × PyStr :=
  let r := urlsplit path
  (r.netloc, r.path)

/-- Embedding of `S3Client.is_root` (s3.py lines 110-111): `(len(key) == 0) or (key == '/')`. -/
def is_root (key : PyStr) : Bool :=
  key.isEmpty || key == "/".toList

/-- Embedding of `S3Client.remove_prepended_slash` (s3.py lines 113-114):
`return key[1:] if key and key[0] == '/' else path`.  The `else` branch
evaluates the name `path`, which is bound neither locally nor at module level
in `s3.py`, so Python raises `NameError: name 'path' is not defined` there. -/
def remove_prepended_slash (key : PyStr) : Except PyErr PyStr :=
  match key with
  | [] => .error (.nameError "path".toList)
  | c :: rest => if c = '/' then .ok rest else .error (.nameError "path".toList)

/-- One backend round-trip performed by `S3Client.exists`. -/
inductive Probe where
  /-- Call `s3_bucket.get_key(k)` -/
  | getKey (k : PyStr)
  /-- Call `s3_bucket.list(prefix=p)` (truncated after one result by `islice`) -/
  | listReq (p : PyStr)
  deriving DecidableEq, Repr

/-- The probe sequence of `S3Client.exists` (s3.py lines 61-90) after the
bucket has been fetched and validated, instrumented with the list of probes
it issues against the bucket.  The loop over the two directory-marker
suffixes is unrolled.  The final step takes at most one element of
`bucket.list(prefix=key_without_slash)` and returns whether that is
non-empty. -/
def existsKeyProbes (objs : S3Objects) (key : PyStr) : Except PyErr Bool × List Probe :=
  if is_root key then (.ok true, [])
    else if (objs.lookup key).isSome then (.ok true, [.getKey key])
    else if (objs.lookup (key ++ S3_DIRECTORY_MARKER_SUFFIX_0)).isSome then
      (.ok true, [.getKey key, .getKey (key ++ S3_DIRECTORY_MARKER_SUFFIX_0)])
    else if (objs.lookup (key ++ S3_DIRECTORY_MARKER_SUFFIX_1)).isSome then
      (.ok true, [.getKey key, .getKey (key ++ S3_DIRECTORY_MARKER_SUFFIX_0),
                  .getKey (key ++ S3_DIRECTORY_MARKER_SUFFIX_1)])
    else
      match remove_prepended_slash key with
      | .error e =>
        (.error e, [.getKey key, .getKey (key ++ S3_DIRECTORY_MARKER_SUFFIX_0),
                    .getKey (key ++ S3_DIRECTORY_MARKER_SUFFIX_1)])
      | .ok key_without_slash =>
        (.ok (!((bucketList objs key_without_slash).take 1).isEmpty),
         [.getKey key, .getKey (key ++ S3_DIRECTORY_MARKER_SUFFIX_0),
          .getKey (key ++ S3_DIRECTORY_MARKER_SUFFIX_1), .listReq key_without_slash])

/-- Embedding of `S3Client.exists` (s3.py lines 53-90): decompose the path, fetch and
validate the bucket, then run the probe sequence, instrumented with the list
of probes issued. -/
def existsCore (st : S3State) (path : PyStr) : Except PyErr Bool × List Probe :=
  let bk := path_to_bucket_and_key path
  match st bk.1 with
  | none => (.error .s3ResponseError, [])
  | some objs => existsKeyProbes objs bk.2

/-- The result of `S3Client.exists` (`exists` is a reserved word in Lean). -/
def existsPath (st : S3State) (path : PyStr) : Except PyErr Bool :=
  (existsCore st path).1

/-- Variant of `existsKeyProbes` that probes the two directory-marker
suffixes in the opposite order (`'/'` before `'_$folder$'`); everything else
is identical. -/
def existsKeyProbesSwapped (objs : S3Objects) (key : PyStr) : Except PyErr Bool × List Probe :=
  if is_root key then (.ok true, [])
    else if (objs.lookup key).isSome then (.ok true, [.getKey key])
    else if (objs.lookup (key ++ S3_DIRECTORY_MARKER_SUFFIX_1)).isSome then
      (.ok true, [.getKey key, .getKey (key ++ S3_DIRECTORY_MARKER_SUFFIX_1)])
    else if (objs.lookup (key ++ S3_DIRECTORY_MARKER_SUFFIX_0)).isSome then
      (.ok true, [.getKey key, .getKey (key ++ S3_DIRECTORY_MARKER_SUFFIX_1),
                  .getKey (key ++ S3_DIRECTORY_MARKER_SUFFIX_0)])
    else
      match remove_prepended_slash key with
      | .error e =>
        (.error e, [.getKey key, .getKey (key ++ S3_DIRECTORY_MARKER_SUFFIX_1),
                    .getKey (key ++ S3_DIRECTORY_MARKER_SUFFIX_0)])
      | .ok key_without_slash =>
        (.ok (!((bucketList objs key_without_slash).take 1).isEmpty),
         [.getKey key, .getKey (key ++ S3_DIRECTORY_MARKER_SUFFIX_1),
          .getKey (key ++ S3_DIRECTORY_MARKER_SUFFIX_0), .listReq key_without_slash])

/-- Variant of `existsCore` that uses the swapped suffix order. -/
def existsCoreSwapped (st : S3State) (path : PyStr) : Except PyErr Bool × List Probe :=
  let bk := path_to_bucket_and_key path
  match st bk.1 with
  | none => (.error .s3ResponseError, [])
  | some objs => existsKeyProbesSwapped objs bk.2

/-- The result of the swapped-suffix-order variant of `S3Client.exists`. -/
def existsPathSwapped (st : S3State) (path : PyStr) : Except PyErr Bool :=
  (existsCoreSwapped st path).1

/-- Embedding of `S3Client.put` (s3.py lines 95-103): decompose the destination, validate
the bucket, then `set_contents_from_filename(local_path)` stores the local
file's bytes as the object body at the destination key. -/
def put (fs : LocalFS) (st : S3State) (local_path destination : PyStr) :
    Except PyErr S3State :=
  let bk := path_to_bucket_and_key destination
  match st bk.1 with
  | none => .error .s3ResponseError
  | some objs =>
    match fs local_path with
    | none => .error .ioError
    | some content =>
      .ok (fun b => if b = bk.1 then some ((bk.2, content) :: objs) else st b)

end S3Client

/-! ## atomic_s3_file (src/luigi/s3.py lines 116-144)

The writer subclasses Python 2's `file`.  Construction computes a staging
path under the system temp directory with a random numeric suffix and opens
it in mode `'w'` (creating/truncating it); the concrete staging path is taken
as a parameter here, standing for
`os.path.join(tempfile.gettempdir(), 'luigi-s3-tmp-%09d' % random.randrange(0, 1e10))`.
The shared backend client is an opaque reference. -/

/-- Reference identity of a backend client object (the module creates one
shared `client = S3Client()` singleton). -/
abbrev ClientRef := Nat

/-- The module-level singleton `client = S3Client()` (s3.py line 146). -/
def client : ClientRef := 0

/-- The data of an `atomic_s3_file` writer handle: the staging path
(`self.__tmp_path`), the destination path (`self.path`) and the shared
backend-client reference (`self.s3_client`). -/
structure atomic_s3_file where
  tmp_path : PyStr
  path : PyStr
  s3_client : ClientRef
  deriving DecidableEq, Repr

namespace atomic_s3_file

/-- Embedding of `atomic_s3_file.__init__` (s3.py lines 120-127): record the fields and
open the staging file for writing (creating/truncating it). -/
def init (tmp path : PyStr) (cl : ClientRef) (fs : LocalFS) :
    atomic_s3_file × LocalFS :=
  ({ tmp_path := tmp, path := path, s3_client := cl }, setFile fs tmp [])

/-- A `write` call on the handle: append to the staging file (the handle was
opened in mode `'w'`, so the file exists; `getD` covers totality). -/
def write (w : atomic_s3_file) (fs : LocalFS) (s : PyStr) : LocalFS :=
  setFile fs w.tmp_path (((fs w.tmp_path).getD []) ++ s)

/-- Embedding of `atomic_s3_file.close` (s3.py lines 129-134): close the staging file,
then `self.s3_client.put(self.__tmp_path, self.path)`.  The staging file is
not deleted here. -/
def close (w : atomic_s3_file) (fs : LocalFS) (st : S3State) :
    Except PyErr S3State :=
  S3Client.put fs st w.tmp_path w.path

/-- Embedding of `atomic_s3_file.__del__` (s3.py lines 136-138): delete the staging file
if it still exists. -/
def del (w : atomic_s3_file) (fs : LocalFS) : LocalFS :=
  if (fs w.tmp_path).isSome then removeFile fs w.tmp_path else fs

end atomic_s3_file

/-! ### Writer lifecycle

Events a host process can perform on a writer handle, and their effect on the
pair (local filesystem, S3 backend).  Each step also reports the destinations
of the `put` calls it issues, so that "no upload occurs" is directly
statable.  `exit false` is a context-manager exit with no pending exception:
Python 2's `file.__exit__` invokes `self.close()`, i.e. the committing close.
`exit true` is a context-manager exit with a pending exception: the
overridden `__exit__` (s3.py lines 140-144) returns immediately without
closing.  `del` is finalization (`__del__`). -/

inductive WriterEvent where
  /-- a `write(s)` call on the handle -/
  | write (s : PyStr)
  /-- an explicit `close()` call -/
  | close
  /-- context-manager exit; the flag tells whether an exception is pending -/
  | exit (excPending : Bool)
  /-- finalization of the handle (`__del__`) -/
  | del
  deriving DecidableEq, Repr

/-- Effect of one writer event on `(local filesystem, S3 backend)`, together
with the list of destination paths of the `put` calls issued.  A `close`
whose `put` fails leaves the backend unchanged and propagates the exception
out of `close`; the state effect is the same either way. -/
def writerStep (w : atomic_s3_file) (ev : WriterEvent) (s : LocalFS × S3State) :
    (LocalFS × S3State) × List PyStr :=
  match ev with
  | .write str => ((w.write s.1 str, s.2), [])
  | .close =>
    (match w.close s.1 s.2 with
     | .ok st' => ((s.1, st'), [w.path])
     | .error _ => (s, [w.path]))
  | .exit excPending =>
    if excPending then (s, [])
    else
      match w.close s.1 s.2 with
      | .ok st' => ((s.1, st'), [w.path])
      | .error _ => (s, [w.path])
  | .del => ((w.del s.1, s.2), [])

/-- Run a sequence of writer events, accumulating the issued `put`
destinations. -/
def runWriter (w : atomic_s3_file) :
    List WriterEvent → LocalFS × S3State → (LocalFS × S3State) × List PyStr
  | [], s => (s, [])
  | ev :: evs, s =>
    let r := writerStep w ev s
    let rest := runWriter w evs r.1
    (rest.1, r.2 ++ rest.2)

/-! ## S3Target (src/luigi/s3.py lines 146-168) -/

/-- The data of a constructed `S3Target`. -/
structure S3TargetData where
  path : PyStr
  format : Option PyStr
  is_tmp : Bool
  /-- class attribute `fs = client`: the shared backend client -/
  fs : ClientRef
  deriving DecidableEq, Repr

namespace S3Target

/-- Embedding of `S3Target.__init__` (s3.py lines 151-159).  With `path=None` the code
asserts `is_tmp` and then calls `tmppath()`; no name `tmppath` is defined or
imported anywhere in the module (only `atomic_file` is imported from
`luigi.file`), so that call raises `NameError: name 'tmppath' is not
defined`.  With a concrete path, the path is urlsplit and
`assert ":" not in path` rejects a colon in the path component
(`AssertionError`, the specification's `MalformedPathError`). -/
def init (path : Option PyStr) (format : Option PyStr) (is_tmp : Bool) :
    Except PyErr S3TargetData :=
  match path with
  | none =>
    if is_tmp then .error (.nameError "tmppath".toList)
    else .error .assertionError
  | some p =>
    let r := urlsplit p
    if ':' ∈ r.path then .error .assertionError
    else .ok { path := p, format := format, is_tmp := is_tmp, fs := client }

/-- Embedding of `S3Target.open` (s3.py lines 161-168): a mode other than `'r'`/`'w'`
raises `ValueError`; `'r'` raises `NotImplementedError`; `'w'` returns
`atomic_s3_file(self.path, self.fs)`.  `tmp` is the staging path the writer
construction allocates and `fs` the local filesystem it creates the staging
file in. -/
def «open» (t : S3TargetData) (mode : PyStr) (tmp : PyStr) (fs : LocalFS) :
    Except PyErr (atomic_s3_file × LocalFS) :=
  if ¬ (mode = "r".toList ∨ mode = "w".toList) then .error .valueError
  else if mode = "r".toList then .error .notImplementedError
  else .ok (atomic_s3_file.init tmp t.path t.fs fs)

/-- Behaviour of `S3Target.open` called with no `mode` argument: the parameter default is
`mode='r'` (s3.py line 161). -/
def openDefault (t : S3TargetData) (tmp : PyStr) (fs : LocalFS) :
    Except PyErr (atomic_s3_file × LocalFS) :=
  «open» t "r".toList tmp fs

end S3Target

/-! ## Specification-side definitions

These restate what the natural-language specification says, to be compared
with the embedded code. -/

/-- The spec's helper `stripLeadingSlash(key)`: removes exactly one leading
'/' if present; otherwise returns the input unchanged. -/
def stripLeadingSlash (key : PyStr) : PyStr :=
  match key with
  | '/' :: rest => rest
  | k => k

/-- Whether a probe issued by `S3Client.exists` comes back successful against
bucket contents `objs`. -/
def probeHits (objs : S3Objects) : S3Client.Probe → Bool
  | .getKey k => (objs.lookup k).isSome
  | .listReq p => !((bucketList objs p).take 1).isEmpty

/-- The elements of a list up to and including the first one satisfying `p`
(the whole list when none does): the shape of an ordered, short-circuiting
probe sequence. -/
def takeThroughFirst {α : Type} (p : α → Bool) : List α → List α
  | [] => []
  | a :: as => if p a then [a] else a :: takeThroughFirst p as

/-- The spec's description of the existence outcome for a key against bucket
contents `objs`: the key is root, or an object exists at exactly the key, or
at the key extended with one of the two directory-marker suffixes, or at
least one object's key has prefix `stripLeadingSlash key`. -/
def existsSpecified (objs : S3Objects) (key : PyStr) : Bool :=
  S3Client.is_root key
  || (objs.lookup key).isSome
  || (objs.lookup (key ++ S3_DIRECTORY_MARKER_SUFFIX_0)).isSome
  || (objs.lookup (key ++ S3_DIRECTORY_MARKER_SUFFIX_1)).isSome
  || objs.any (fun o => (stripLeadingSlash key).isPrefixOf o.1)

/-- The spec's probe plan: no probes for a root key; otherwise the ordered
probes (exact key, the two marker suffixes, one-result prefix listing)
truncated at the first success. -/
def probePlanSpec (objs : S3Objects) (key : PyStr) : List S3Client.Probe :=
  if S3Client.is_root key then []
  else takeThroughFirst (probeHits objs)
    [.getKey key, .getKey (key ++ S3_DIRECTORY_MARKER_SUFFIX_0),
     .getKey (key ++ S3_DIRECTORY_MARKER_SUFFIX_1),
     .listReq (stripLeadingSlash key)]

/-- A sequence of `write` calls on the handle, in order. -/
def writeAll (w : atomic_s3_file) : LocalFS → List PyStr → LocalFS
  | fs, [] => fs
  | fs, c :: cs => writeAll w (w.write fs c) cs

/-! ## Concrete fixtures used by the claim witnesses -/

/-- Example path from the specification: `s3://mybucket/data/x.txt`. -/
def pC : PyStr := "s3://mybucket/data/x.txt".toList

/-- Contents of the example bucket: a single directory-marker object stored
at the (slash-free) key `data/x.txt_$folder$` with an empty body. -/
def objsC : S3Objects := [("data/x.txt_$folder$".toList, [])]

/-- Example backend: one bucket, `mybucket`, with contents `objsC`. -/
def stC : S3State :=
  fun b => if b = "mybucket".toList then some objsC else none

/-- Example local filesystem: empty. -/
def fsC : LocalFS := fun _ => none

/-- Example staging path. -/
def tmpC : PyStr := "/tmp/luigi-s3-tmp-000000042".toList

/-- Example target bound to the example path `s3://mybucket/data/x.txt`. -/
def tC : S3TargetData := { path := pC, format := none, is_tmp := false, fs := client }

/-! ## Helper lemmas -/

/-- In any `urlsplit` result with a non-empty netloc, the path component is
empty or begins with '/': the netloc stage stops at the first of `/?#`, and
the fragment and query splits remove everything from `#` or `?` on. -/
theorem urlsplit_path_shape (url : PyStr) (h : (urlsplit url).netloc ≠ []) :
    (urlsplit url).path = [] ∨ (urlsplit url).path.head? = some '/' := by
  have hn : (urlsplit url).netloc = (splitNetloc (splitScheme url).2).1 := rfl
  have hp : (urlsplit url).path =
      (splitAtFirst '?' (splitAtFirst '#' (splitNetloc (splitScheme url).2).2).1).1 := rfl
  rw [hn] at h
  rw [hp]
  by_cases hb : (splitScheme url).2.take 2 = "//".toList
  · have h2 : (splitNetloc (splitScheme url).2).2 =
        ((splitScheme url).2.drop 2).dropWhile (fun c => !isNetlocEnd c) := by
      simp [splitNetloc, hb]
    rw [h2]
    rcases hhead : (((splitScheme url).2.drop 2).dropWhile (fun c => !isNetlocEnd c)).head?
      with _ | c
    · have hnil : ((splitScheme url).2.drop 2).dropWhile (fun c => !isNetlocEnd c) = [] := by
        rcases h' : ((splitScheme url).2.drop 2).dropWhile (fun c => !isNetlocEnd c)
          with _ | ⟨a, t⟩
        · rfl
        · rw [h'] at hhead; simp at hhead
      rw [hnil]
      left
      rfl
    · have hc := List.head?_dropWhile_not (fun c => !isNetlocEnd c) ((splitScheme url).2.drop 2)
      rw [hhead] at hc
      simp only [Bool.not_eq_false'] at hc
      obtain ⟨t, hlist⟩ :
          ∃ t, ((splitScheme url).2.drop 2).dropWhile (fun c => !isNetlocEnd c) = c :: t := by
        rcases h' : ((splitScheme url).2.drop 2).dropWhile (fun c => !isNetlocEnd c)
          with _ | ⟨a, t⟩
        · rw [h'] at hhead; simp at hhead
        · rw [h'] at hhead; simp at hhead; exact ⟨t, by rw [hhead]⟩
      rw [hlist]
      have hcase : c = '/' ∨ c = '?' ∨ c = '#' := by
        simp only [isNetlocEnd, Bool.or_eq_true, decide_eq_true_eq] at hc
        tauto
      rcases hcase with hc' | hc' | hc'
      · subst hc'
        right
        simp [splitAtFirst, List.takeWhile_cons]
      · subst hc'
        left
        simp [splitAtFirst, List.takeWhile_cons]
      · subst hc'
        left
        simp [splitAtFirst, List.takeWhile_cons]
  · exfalso
    apply h
    show (splitNetloc (splitScheme url).2).1 = []
    unfold splitNetloc
    rw [if_neg hb]

/-- One-element truncation of the prefix listing is non-empty exactly when
some object's key has the prefix. -/
theorem bucketList_take_one (objs : S3Objects) (p : PyStr) :
    (!((bucketList objs p).take 1).isEmpty) = objs.any (fun o => p.isPrefixOf o.1) := by
  induction objs with
  | nil => rfl
  | cons o os ih =>
    by_cases hp : p.isPrefixOf o.1
    · simp [bucketList, List.filter_cons, hp]
    · simp only [bucketList, List.map_cons, List.filter_cons] at ih ⊢
      simp only [hp, Bool.false_eq_true, if_false, List.any_cons]
      rw [ih]
      simp [hp]

/-- For keys of the shape produced by a path with a non-empty netloc (empty,
or beginning with '/'), the probe chain of `S3Client.exists` computes the
specified existence disjunction, and its probe trace is the ordered plan
truncated at the first success. -/
theorem existsKeyProbes_spec (objs : S3Objects) (key : PyStr)
    (hk : key = [] ∨ key.head? = some '/') :
    S3Client.existsKeyProbes objs key =
      (.ok (existsSpecified objs key), probePlanSpec objs key) := by
  by_cases hroot : S3Client.is_root key = true
  · simp [S3Client.existsKeyProbes, existsSpecified, probePlanSpec, hroot]
  · obtain ⟨t, rfl⟩ : ∃ t, key = '/' :: t := by
      rcases hk with hk | hk
      · subst hk; simp [S3Client.is_root] at hroot
      · rcases key with _ | ⟨c, t⟩
        · simp at hk
        · simp only [List.head?_cons, Option.some.injEq] at hk
          exact ⟨t, by rw [hk]⟩
    have hstrip : stripLeadingSlash ('/' :: t) = t := rfl
    have hrps : S3Client.remove_prepended_slash ('/' :: t) = .ok t := rfl
    have hroot' : S3Client.is_root ('/' :: t) = false := Bool.eq_false_iff.mpr hroot
    simp only [S3Client.existsKeyProbes, existsSpecified, probePlanSpec,
      takeThroughFirst, probeHits, hrps, hstrip, hroot', Bool.false_eq_true,
      if_false, Bool.false_or]
    split_ifs with h1 h2 h3 h4
    · simp only [h1, Bool.true_or]
    · simp only [h1, Bool.false_eq_true, Bool.false_or] at *
      simp only [h2, Bool.true_or]
    · simp only [h1, h2, Bool.false_eq_true, Bool.false_or] at *
      simp only [h3, Bool.true_or]
    · simp only [h1, h2, h3, Bool.false_eq_true, Bool.false_or] at *
      simp only [bucketList_take_one]
    · simp only [h1, h2, h3, Bool.false_eq_true, Bool.false_or] at *
      simp only [bucketList_take_one]

/-- The swapped-suffix-order probe chain computes the same result (first
component) as the original for every key and bucket contents; only the probe
traces can differ. -/
theorem existsKeyProbes_swap_fst (objs : S3Objects) (key : PyStr) :
    (S3Client.existsKeyProbes objs key).1 = (S3Client.existsKeyProbesSwapped objs key).1 := by
  simp only [S3Client.existsKeyProbes, S3Client.existsKeyProbesSwapped]
  split_ifs <;>
    first
      | rfl
      | (cases hm : S3Client.remove_prepended_slash key <;> simp [hm])

/-! ## Claim theorems -/

/-- C1: for every path P decomposing to (bucket, key) with a valid bucket
(non-empty name, and present in the backend), `exists(P)` returns true if
and only if the key is root (empty or '/'), or an object exists at exactly
the key, or an object exists at key+'_$folder$' or key+'/', or at least one
object's key has prefix `stripLeadingSlash key`; otherwise it returns
false.  Moreover the probes are performed in that order and short-circuit at
the first success (the probe trace is the ordered plan truncated at the
first successful probe). -/
theorem claim_C1_exists_probe_spec (st : S3State) (P : PyStr) (objs : S3Objects)
    (hb : st (S3Client.path_to_bucket_and_key P).1 = some objs)
    (hbn : (S3Client.path_to_bucket_and_key P).1 ≠ []) :
    S3Client.existsPath st P =
      .ok (existsSpecified objs (S3Client.path_to_bucket_and_key P).2) ∧
    (S3Client.existsCore st P).2 =
      probePlanSpec objs (S3Client.path_to_bucket_and_key P).2 := by
  have hshape : (S3Client.path_to_bucket_and_key P).2 = [] ∨
      (S3Client.path_to_bucket_and_key P).2.head? = some '/' :=
    urlsplit_path_shape P hbn
  have hcore : S3Client.existsCore st P =
      S3Client.existsKeyProbes objs (S3Client.path_to_bucket_and_key P).2 := by
    have hm : S3Client.existsCore st P =
        match st (S3Client.path_to_bucket_and_key P).1 with
        | none => (.error .s3ResponseError, [])
        | some objs => S3Client.existsKeyProbes objs (S3Client.path_to_bucket_and_key P).2 :=
      rfl
    rw [hm, hb]
  constructor
  · show (S3Client.existsCore st P).1 = _
    rw [hcore, existsKeyProbes_spec objs _ hshape]
  · rw [hcore, existsKeyProbes_spec objs _ hshape]

/-- Witness for C1 at the spec's own example: `s3://mybucket/data/x.txt`
against a bucket holding only `data/x.txt_$folder$` (the probes all run and
existence is inferred from the prefix listing). -/
theorem claim_C1_witness :
    (stC (S3Client.path_to_bucket_and_key pC).1 = some objsC ∧
      (S3Client.path_to_bucket_and_key pC).1 ≠ []) ∧
    (S3Client.existsPath stC pC =
        .ok (existsSpecified objsC (S3Client.path_to_bucket_and_key pC).2) ∧
      (S3Client.existsCore stC pC).2 =
        probePlanSpec objsC (S3Client.path_to_bucket_and_key pC).2) :=
  ⟨⟨by decide, by decide⟩,
    claim_C1_exists_probe_spec stC pC objsC (by decide) (by decide)⟩

/-- C9: the result of `exists` is unchanged if the two directory-marker
suffixes `_$folder$` and `/` are probed in the opposite order: for every
backend state and path, both probe orders give the same outcome. -/
theorem claim_C9_suffix_order_irrelevant (st : S3State) (P : PyStr) :
    S3Client.existsPath st P = S3Client.existsPathSwapped st P := by
  have h1 : S3Client.existsPath st P =
      (match st (S3Client.path_to_bucket_and_key P).1 with
       | none => ((.error .s3ResponseError, []) : Except PyErr Bool × List S3Client.Probe)
       | some objs => S3Client.existsKeyProbes objs (S3Client.path_to_bucket_and_key P).2).1 :=
    rfl
  have h2 : S3Client.existsPathSwapped st P =
      (match st (S3Client.path_to_bucket_and_key P).1 with
       | none => ((.error .s3ResponseError, []) : Except PyErr Bool × List S3Client.Probe)
       | some objs => S3Client.existsKeyProbesSwapped objs (S3Client.path_to_bucket_and_key P).2).1 :=
    rfl
  rw [h1, h2]
  cases hb : st (S3Client.path_to_bucket_and_key P).1 with
  | none => rfl
  | some objs => exact existsKeyProbes_swap_fst objs _

/-! ## Writer content and cleanup lemmas -/

/-- After writing chunks `cs` to a staging file currently holding `acc`, the
staging file holds `acc ++ cs.flatten`. -/
theorem writeAll_tmp_content (w : atomic_s3_file) (cs : List PyStr) :
    ∀ (fs : LocalFS) (acc : PyStr),
      (writeAll w (setFile fs w.tmp_path acc) cs) w.tmp_path = some (acc ++ cs.flatten) := by
  induction cs with
  | nil =>
    intro fs acc
    simp [writeAll, setFile]
  | cons c cs ih =>
    intro fs acc
    have hw : w.write (setFile fs w.tmp_path acc) c =
        setFile (setFile fs w.tmp_path acc) w.tmp_path (acc ++ c) := by
      unfold atomic_s3_file.write
      simp [setFile]
    show (writeAll w (w.write (setFile fs w.tmp_path acc) c) cs) w.tmp_path = _
    rw [hw, ih (setFile fs w.tmp_path acc) (acc ++ c)]
    simp [List.append_assoc]

/-- Finalization always leaves no staging file behind. -/
theorem del_tmp_none (w : atomic_s3_file) (fs : LocalFS) :
    (w.del fs) w.tmp_path = none := by
  unfold atomic_s3_file.del
  by_cases h : (fs w.tmp_path).isSome
  · rw [if_pos h]
    simp [removeFile]
  · rw [if_neg h]
    exact Option.not_isSome_iff_eq_none.mp h

/-- C2: for every content (as a chunk sequence `cs`) and every target whose
bucket exists, obtaining a write handle from `Target.open('w')`, writing the
chunks and closing the handle stores exactly the concatenation of the chunks
as the single object at the target path's (bucket, key). -/
theorem claim_C2_write_roundtrip (t : S3TargetData) (st : S3State) (objs : S3Objects)
    (fs : LocalFS) (tmp : PyStr) (cs : List PyStr)
    (hb : st (S3Client.path_to_bucket_and_key t.path).1 = some objs) :
    ∃ w fs1 st',
      S3Target.«open» t "w".toList tmp fs = .ok (w, fs1) ∧
      w.close (writeAll w fs1 cs) st = .ok st' ∧
      getObject st' (S3Client.path_to_bucket_and_key t.path).1
        (S3Client.path_to_bucket_and_key t.path).2 = some cs.flatten := by
  refine ⟨{ tmp_path := tmp, path := t.path, s3_client := t.fs }, setFile fs tmp [],
    (fun b => if b = (S3Client.path_to_bucket_and_key t.path).1
      then some (((S3Client.path_to_bucket_and_key t.path).2, cs.flatten) :: objs)
      else st b), rfl, ?_, ?_⟩
  · have hcontent :
        (writeAll { tmp_path := tmp, path := t.path, s3_client := t.fs }
          (setFile fs tmp []) cs) tmp = some cs.flatten := by
      simpa using
        writeAll_tmp_content { tmp_path := tmp, path := t.path, s3_client := t.fs } cs fs []
    have hput : ∀ (F : LocalFS),
        S3Client.put F st tmp t.path =
          match st (S3Client.path_to_bucket_and_key t.path).1 with
          | none => .error .s3ResponseError
          | some objs =>
            match F tmp with
            | none => .error .ioError
            | some content =>
              .ok (fun b => if b = (S3Client.path_to_bucket_and_key t.path).1
                then some (((S3Client.path_to_bucket_and_key t.path).2, content) :: objs)
                else st b) :=
      fun F => rfl
    show S3Client.put _ st tmp t.path = _
    rw [hput, hb, hcontent]
  · simp [getObject]

/-- C3: a writer abandoned without an explicit close or committing exit —
any event sequence free of `close` and of exception-free context-manager
exit, so plain abandonment, exit with a pending exception, and finalization —
issues no `put` call, and the backend state (in particular the destination
object) is left untouched. -/
theorem claim_C3_abandoned_no_upload (w : atomic_s3_file) (evs : List WriterEvent)
    (s : LocalFS × S3State)
    (h : ∀ e ∈ evs, e ≠ WriterEvent.close ∧ e ≠ WriterEvent.exit false) :
    (runWriter w evs s).2 = [] ∧ ((runWriter w evs s).1).2 = s.2 := by
  induction evs generalizing s with
  | nil => exact ⟨rfl, rfl⟩
  | cons e evs ih =>
    have he := h e (List.mem_cons_self e evs)
    have h' : ∀ e' ∈ evs, e' ≠ WriterEvent.close ∧ e' ≠ WriterEvent.exit false :=
      fun e' he' => h e' (List.mem_cons_of_mem e he')
    cases e with
    | write str =>
      simp only [runWriter, writerStep, List.nil_append]
      exact ih (w.write s.1 str, s.2) h'
    | close => exact absurd rfl he.1
    | exit b =>
      cases b with
      | true =>
        simp only [runWriter, writerStep, if_true, List.nil_append]
        exact ih s h'
      | false => exact absurd rfl he.2
    | del =>
      simp only [runWriter, writerStep, List.nil_append]
      exact ih (w.del s.1, s.2) h'

/-- Witness for C3: write then exit-with-exception then finalize. -/
theorem claim_C3_witness :
    (∀ e ∈ [WriterEvent.write "data".toList, WriterEvent.exit true, WriterEvent.del],
      e ≠ WriterEvent.close ∧ e ≠ WriterEvent.exit false) ∧
    ((runWriter { tmp_path := tmpC, path := pC, s3_client := client }
        [WriterEvent.write "data".toList, WriterEvent.exit true, WriterEvent.del]
        (fsC, stC)).2 = [] ∧
      ((runWriter { tmp_path := tmpC, path := pC, s3_client := client }
        [WriterEvent.write "data".toList, WriterEvent.exit true, WriterEvent.del]
        (fsC, stC)).1).2 = (fsC, stC).2) :=
  ⟨by decide,
    claim_C3_abandoned_no_upload { tmp_path := tmpC, path := pC, s3_client := client }
      [WriterEvent.write "data".toList, WriterEvent.exit true, WriterEvent.del]
      (fsC, stC) (by decide)⟩

/-- C4: every writer lifecycle that ends in finalization — whatever happened
before: writes, successful or failing commits, abandonment — leaves no
staging file on disk; its deletion is unconditional on every exit path of
the writer's lifetime. -/
theorem claim_C4_staging_file_cleanup (w : atomic_s3_file) (evs : List WriterEvent)
    (s : LocalFS × S3State) :
    (((runWriter w (evs ++ [WriterEvent.del]) s).1).1) w.tmp_path = none := by
  induction evs generalizing s with
  | nil =>
    show (w.del s.1) w.tmp_path = none
    exact del_tmp_none w s.1
  | cons e evs ih =>
    simp only [List.cons_append, runWriter]
    exact ih (writerStep w e s).1

/-- Witness for C2: writing the single chunk `hello` to the example target
and closing the handle. -/
theorem claim_C2_witness :
    stC (S3Client.path_to_bucket_and_key tC.path).1 = some objsC ∧
    (∃ w fs1 st',
      S3Target.«open» tC "w".toList tmpC fsC = .ok (w, fs1) ∧
      w.close (writeAll w fs1 ["hello".toList]) stC = .ok st' ∧
      getObject st' (S3Client.path_to_bucket_and_key tC.path).1
        (S3Client.path_to_bucket_and_key tC.path).2 = some ["hello".toList].flatten) :=
  ⟨by decide,
    claim_C2_write_roundtrip tC stC objsC fsC tmpC ["hello".toList] (by decide)⟩

/-- C5: the specification says `stripLeadingSlash` removes exactly one
leading '/' if present and otherwise returns the input unchanged.  The
code's `remove_prepended_slash` does strip one leading '/', but in the
no-leading-slash branch (including the empty key) it evaluates the undefined
name `path` and raises `NameError` instead of returning the key: the
specification states the evident intent and the code has a slip (`else path`
for `else key`). -/
theorem claim_C5_remove_slash_eval :
    S3Client.remove_prepended_slash "/data/x.txt".toList = .ok "data/x.txt".toList ∧
    S3Client.remove_prepended_slash "data/x.txt".toList =
      .error (.nameError "path".toList) ∧
    S3Client.remove_prepended_slash [] = .error (.nameError "path".toList) :=
  ⟨rfl, rfl, rfl⟩

/-- C6: the claim says constructing a target with `path=None, is_tmp=True`
succeeds with an allocated temporary path; the code instead calls the
undefined name `tmppath` (never defined or imported in the module) and
raises `NameError`. -/
theorem claim_C6_tmp_target_eval :
    S3Target.init none none true = .error (.nameError "tmppath".toList) := rfl

/-- C7: for every path whose path component (after urlsplit) contains a
colon, target construction fails on `assert ":" not in path` — the
`AssertionError` realizing the specification's `MalformedPathError`. -/
theorem claim_C7_colon_rejected (p : PyStr) (format : Option PyStr) (is_tmp : Bool)
    (h : ':' ∈ (urlsplit p).path) :
    S3Target.init (some p) format is_tmp = .error .assertionError := by
  have hred : S3Target.init (some p) format is_tmp =
      if ':' ∈ (urlsplit p).path then .error .assertionError
      else .ok { path := p, format := format, is_tmp := is_tmp, fs := client } := rfl
  rw [hred, if_pos h]

/-- Witness for C7 at the spec's example `s3://bucket/a:b`. -/
theorem claim_C7_witness :
    ':' ∈ (urlsplit "s3://bucket/a:b".toList).path ∧
    S3Target.init (some "s3://bucket/a:b".toList) none false = .error .assertionError :=
  ⟨by decide, claim_C7_colon_rejected "s3://bucket/a:b".toList none false (by decide)⟩

/-- C8: `open` with a mode other than 'r'/'w' fails with the unsupported-mode
error (`ValueError` in the code); `open('r')` fails with
`NotImplementedError`; `open('w')` returns an atomic writer handle bound to
the target's path and the shared backend-client reference (and creates the
staging file). -/
theorem claim_C8_open_modes (t : S3TargetData) (tmp : PyStr) (fs : LocalFS) :
    (∀ mode, ¬ (mode = "r".toList ∨ mode = "w".toList) →
      S3Target.«open» t mode tmp fs = .error .valueError) ∧
    S3Target.«open» t "r".toList tmp fs = .error .notImplementedError ∧
    S3Target.«open» t "w".toList tmp fs =
      .ok ({ tmp_path := tmp, path := t.path, s3_client := t.fs }, setFile fs tmp []) := by
  refine ⟨?_, rfl, rfl⟩
  intro mode hm
  unfold S3Target.«open»
  rw [if_pos hm]

/-- Witness for C8 at mode 'x' and the example target. -/
theorem claim_C8_witness :
    (¬ ("x".toList = "r".toList ∨ "x".toList = "w".toList)) ∧
    S3Target.«open» tC "x".toList tmpC fsC = .error .valueError ∧
    S3Target.«open» tC "r".toList tmpC fsC = .error .notImplementedError ∧
    S3Target.«open» tC "w".toList tmpC fsC =
      .ok ({ tmp_path := tmpC, path := tC.path, s3_client := tC.fs },
        setFile fsC tmpC []) := by
  obtain ⟨h1, h2, h3⟩ := claim_C8_open_modes tC tmpC fsC
  exact ⟨by decide, h1 "x".toList (by decide), h2, h3⟩

/-- C10: calling `open()` with no mode argument uses the default `mode='r'`
and therefore always raises `NotImplementedError`; a writer handle is only
ever returned for an explicit mode 'w'. -/
theorem claim_C10_default_mode :
    (∀ (t : S3TargetData) (tmp : PyStr) (fs : LocalFS),
      S3Target.openDefault t tmp fs = .error .notImplementedError) ∧
    (∀ (t : S3TargetData) (mode tmp : PyStr) (fs : LocalFS)
      (w : atomic_s3_file) (fs1 : LocalFS),
      S3Target.«open» t mode tmp fs = .ok (w, fs1) → mode = "w".toList) := by
  constructor
  · intro t tmp fs
    rfl
  · intro t mode tmp fs w fs1 h
    by_cases hrw : mode = "r".toList ∨ mode = "w".toList
    · rcases hrw with hr | hw
      · subst hr
        have hre : S3Target.«open» t "r".toList tmp fs = .error .notImplementedError := rfl
        rw [hre] at h
        exact Except.noConfusion h
      · exact hw
    · unfold S3Target.«open» at h
      rw [if_pos hrw] at h
      exact Except.noConfusion h

/-- Witness for C10: the default-mode call fails on the example target, and
the mode of a successful open is forced to be 'w'. -/
theorem claim_C10_witness :
    S3Target.openDefault tC tmpC fsC = .error .notImplementedError ∧
    "w".toList = "w".toList :=
  ⟨claim_C10_default_mode.1 tC tmpC fsC,
    claim_C10_default_mode.2 tC "w".toList tmpC fsC
      { tmp_path := tmpC, path := tC.path, s3_client := tC.fs } (setFile fsC tmpC []) rfl⟩
